import Mathlib

set_option maxRecDepth 65536

/-!
Verification of the sysdesign-wiki content library.

This file gives a shallow embedding, in Lean, of the data model and the pure
functions of the repository:

* the category configuration (`src/data/types.ts`, in its current 11-category
  revision, which is the one consistent with the 17-entry roster in
  `src/data/index.ts`; an older 7-category revision of the same file is also
  present in the repository snapshot),
* the prompt generator (`src/lib/prompt-generator.ts`, current revision with
  the four exported functions),
* the aggregation indexes for systems (`src/data/index.ts`) and guides
  (`src/data/guides/index.ts`): the slug lookup, the category filter and the
  tag listing.  The TypeScript functions close over the module-level arrays
  `systems` / `guides`; here the roster is passed explicitly as the first
  argument, so the theorems quantify over every possible roster,
* the per-system OG-image route's local category→color table and its
  fallback (`src/pages/og/[slug].png.ts`),
* the `googleDrive` legacy record (`src/data/google-drive.ts`), transcribed
  in full.

JavaScript strings are modelled as Lean `String`; a JS object used as an
ordered map (`Record<string, string>` iterated with `Object.entries`) is
modelled as a `List (String × String)` in insertion order; `Array.join(sep)`
is `String.intercalate sep`; optional values (`body?: string`, `diagram?:`)
are `Option String`; `??` is `Option.getD`.  String concatenation in the
template literals is written fully right-associated.
-/

/-- The `Category` union of `src/data/types.ts` (current revision):
`'messaging' | 'social' | 'streaming' | 'transport' | 'search' | 'commerce'
| 'infra' | 'video' | 'devtools' | 'ai' | 'productivity'`. -/
inductive Category : Type
  | messaging | social | streaming | transport | search | commerce | infra
  | video | devtools | ai | productivity
deriving DecidableEq

/-- The string value each `Category` member has in the TypeScript source
(categories are string-literal union members there). -/
def Category.jsName : Category → String
  | .messaging => "messaging"
  | .social => "social"
  | .streaming => "streaming"
  | .transport => "transport"
  | .search => "search"
  | .commerce => "commerce"
  | .infra => "infra"
  | .video => "video"
  | .devtools => "devtools"
  | .ai => "ai"
  | .productivity => "productivity"

instance : BEq Category := ⟨fun a b => decide (a = b)⟩

instance : LawfulBEq Category where
  eq_of_beq h := by simpa [BEq.beq] using h
  rfl := by simp [BEq.beq]

/-- The `categoryLabels` record of `src/data/types.ts`, as an association
list in the object literal's entry order. -/
def categoryLabels : List (Category × String) :=
  [(.messaging, "Messaging"), (.social, "Social Media"), (.streaming, "Streaming"),
   (.transport, "Transportation"), (.search, "Search & Discovery"),
   (.commerce, "E-Commerce"), (.infra, "Infrastructure"),
   (.video, "Video & Conferencing"), (.devtools, "Developer Tools"),
   (.ai, "AI & ML"), (.productivity, "Productivity")]

/-- The `categoryColors` record of `src/data/types.ts`. -/
def categoryColors : List (Category × String) :=
  [(.messaging, "bg-cat-messaging"), (.social, "bg-cat-social"), (.streaming, "bg-cat-streaming"),
   (.transport, "bg-cat-transport"), (.search, "bg-cat-search"),
   (.commerce, "bg-cat-commerce"), (.infra, "bg-cat-infra"),
   (.video, "bg-cat-video"), (.devtools, "bg-cat-devtools"),
   (.ai, "bg-cat-ai"), (.productivity, "bg-cat-productivity")]

/-- One `{ name, description }` entry of a `components` list. -/
structure ComponentItem : Type where
  name : String
  description : String
deriving DecidableEq

/-- One `{ title, content, diagram? }` entry of a `deepDive` list. -/
structure DeepDiveItem : Type where
  title : String
  content : String
  diagram : Option String
deriving DecidableEq

/-- One `{ decision, pros, cons }` entry of a `tradeoffs` list. -/
structure TradeoffItem : Type where
  decision : String
  pros : List String
  cons : List String
deriving DecidableEq

/-- The `requirements` sub-object of a `SystemDesign`. -/
structure RequirementsItem : Type where
  functional : List String
  nonFunctional : List String
deriving DecidableEq

/-- The `SystemDesign` interface of `src/data/types.ts` (current revision).
`scale : Record<string, string>` is modelled as a list of key-value pairs in
insertion order, which is the order `Object.entries` yields. -/
structure SystemDesign : Type where
  slug : String
  name : String
  tagline : String
  category : Category
  tags : List String
  overview : String
  scale : List (String × String)
  requirements : RequirementsItem
  highLevelDiagram : String
  components : List ComponentItem
  dataModel : String
  deepDive : List DeepDiveItem
  tradeoffs : List TradeoffItem
deriving DecidableEq

/-- The `GuideCategory` union: `'real-time' | 'platform' | 'data' |
'reliability' | 'security' | 'media' | 'collaboration'` (the values appear
in `src/content.config.ts` and in the guide records; the guides `types.ts`
module itself is not in the provided sources). -/
inductive GuideCategory : Type
  | realTime | platform | data | reliability | security | media | collaboration
deriving DecidableEq

instance : BEq GuideCategory := ⟨fun a b => decide (a = b)⟩

instance : LawfulBEq GuideCategory where
  eq_of_beq h := by simpa [BEq.beq] using h
  rfl := by simp [BEq.beq]

/-- One `{ name, description, pros, cons }` entry of a guide's `approaches`
list. -/
structure ApproachItem : Type where
  name : String
  description : String
  pros : List String
  cons : List String
deriving DecidableEq

/-- One `{ system, approach }` entry of a guide's `realWorldExamples` list. -/
structure RealWorldExampleItem : Type where
  system : String
  approach : String
deriving DecidableEq

/-- The `FeatureGuide` record shape, with the fields every guide record file
(e.g. `src/data/guides/sse.ts`) carries: `slug`, `title`, `tagline`,
`category`, `tags`, `problem`, `approaches`, `architectureDiagram`,
`components`, `dataModel`, `deepDive`, `realWorldExamples`, `tradeoffs`. -/
structure FeatureGuide : Type where
  slug : String
  title : String
  tagline : String
  category : GuideCategory
  tags : List String
  problem : String
  approaches : List ApproachItem
  architectureDiagram : String
  components : List ComponentItem
  dataModel : String
  deepDive : List DeepDiveItem
  realWorldExamples : List RealWorldExampleItem
  tradeoffs : List TradeoffItem
deriving DecidableEq

/-- The front-matter data `{ name, tagline }` of a schema-document system
entry, as consumed by `generateBuildPromptFromMdx`. -/
structure MdxSystemData : Type where
  name : String
  tagline : String
deriving DecidableEq

/-- A schema-document system entry `{ data, body? }`. -/
structure MdxSystemEntry : Type where
  data : MdxSystemData
  body : Option String
deriving DecidableEq

/-- The front-matter data `{ title, tagline }` of a schema-document guide
entry. -/
structure MdxGuideData : Type where
  title : String
  tagline : String
deriving DecidableEq

/-- A schema-document guide entry `{ data, body? }`. -/
structure MdxGuideEntry : Type where
  data : MdxGuideData
  body : Option String
deriving DecidableEq

/-- JavaScript `String.prototype.toLowerCase()`, modelled character-wise
(the titles it is applied to are plain ASCII). -/
def jsToLowerCase (s : String) : String := ⟨s.data.map Char.toLower⟩

/-- `getSystemBySlug` of `src/data/index.ts`:
`systems.find((s) => s.slug === slug)`; the module-level `systems` array is
the explicit first argument here. -/
def getSystemBySlug (systems : List SystemDesign) (slug : String) : Option SystemDesign :=
  systems.find? (fun s => s.slug == slug)

/-- `getSystemsByCategory` of `src/data/index.ts`:
`systems.filter((s) => s.category === category)`. -/
def getSystemsByCategory (systems : List SystemDesign) (category : Category) : List SystemDesign :=
  systems.filter (fun s => s.category == category)

/-- First-occurrence deduplication, the effect of `[...new Set(xs)]`. -/
def setDedup : List String → List String
  | [] => []
  | x :: xs => x :: setDedup (xs.filter (fun y => y ≠ x))
termination_by l => l.length
decreasing_by
  simpa using Nat.lt_succ_of_le (List.length_filter_le _ xs)

/-- `getAllTags` of `src/data/index.ts`:
`[...new Set(systems.flatMap((s) => s.tags))].sort()`; the default JS sort
on strings is lexicographic, modelled with `List.insertionSort (· ≤ ·)`. -/
def getAllTags (systems : List SystemDesign) : List String :=
  (setDedup (systems.flatMap (fun s => s.tags))).insertionSort (· ≤ ·)

/-- `getGuideBySlug` of `src/data/guides/index.ts`:
`guides.find((g) => g.slug === slug)`. -/
def getGuideBySlug (guides : List FeatureGuide) (slug : String) : Option FeatureGuide :=
  guides.find? (fun g => g.slug == slug)

/-- `getGuidesByCategory` of `src/data/guides/index.ts`:
`guides.filter((g) => g.category === category)`. -/
def getGuidesByCategory (guides : List FeatureGuide) (category : GuideCategory) : List FeatureGuide :=
  guides.filter (fun g => g.category == category)

/-- `getAllGuideTags` of `src/data/guides/index.ts`:
`[...new Set(guides.flatMap((g) => g.tags))].sort()`. -/
def getAllGuideTags (guides : List FeatureGuide) : List String :=
  (setDedup (guides.flatMap (fun g => g.tags))).insertionSort (· ≤ ·)

/-- The local `categoryColor` table inside the per-system OG route
`src/pages/og/[slug].png.ts` — seven entries, keyed by the category's
string value. -/
def ogSystemCategoryColor : List (String × String) :=
  [("messaging", "#2d6a4f"),
   ("social", "#7b2d8b"),
   ("streaming", "#c2185b"),
   ("transport", "#1565c0"),
   ("search", "#e65100"),
   ("commerce", "#4e342e"),
   ("infra", "#37474f")]

/-- The accent/badge color the per-system OG route resolves:
`categoryColor[system.category] ?? '#6b4c3b'`. -/
def ogSystemAccentColor (c : Category) : String :=
  (ogSystemCategoryColor.lookup c.jsName).getD "#6b4c3b"

/-- `generateBuildPromptFromMdx` of `src/lib/prompt-generator.ts`: the
schema-document system prompt.  `entry.body ?? ''` is `entry.body.getD ""`. -/
def generateBuildPromptFromMdx (entry : MdxSystemEntry) : String :=
  let name := entry.data.name
  let tagline := entry.data.tagline
  let body := entry.body.getD ""
  "# Build a " ++ (name ++ ("-like System\n\nYou are an expert software architect. I want to build a production-grade application inspired by " ++ (name ++ (" (" ++ (tagline ++ (").\n\nUse the following system design reference to guide the architecture, tech choices, and implementation. Adapt it to my specific needs while preserving the key architectural patterns that make this system work at scale.\n\n---\n\n## System Design Reference\n" ++ (body ++ ("\n\n---\n\n## Instructions\n\nBased on the architecture above, please:\n\n1. **Choose a modern tech stack** appropriate for my team size and scale targets. Justify each choice.\n2. **Design the database schema** with proper indexes, partitioning strategy, and replication approach.\n3. **Implement the core services** starting with the most critical path (e.g., message delivery for messaging, feed generation for social).\n4. **Set up the infrastructure** with containerization, CI/CD, monitoring, and observability.\n5. **Plan for scale** — identify the components that will need horizontal scaling first and design them to be stateless where possible.\n\nStart by asking me clarifying questions about my specific requirements, team size, budget, and timeline. Then produce a phased implementation plan.\n"))))))))

/-- `generateGuidePromptFromMdx` of `src/lib/prompt-generator.ts`: the
schema-document guide prompt. -/
def generateGuidePromptFromMdx (entry : MdxGuideEntry) : String :=
  let title := entry.data.title
  let tagline := entry.data.tagline
  let body := entry.body.getD ""
  "# How to Build: " ++ (title ++ ("\n\nYou are an expert software architect. I want to implement " ++ (jsToLowerCase title ++ (" in my application. (" ++ (tagline ++ (").\n\nUse the following architectural guide to inform the design. Adapt it to my specific needs while preserving the key patterns.\n\n---\n\n" ++ (body ++ ("\n\n---\n\n## Instructions\n\nBased on the architecture above, please:\n\n1. **Recommend an approach** best suited for my scale, team, and constraints. Justify the choice.\n2. **Design the data model** with proper indexes, partitioning, and storage strategy.\n3. **Implement the core logic** with production-ready error handling and edge cases.\n4. **Plan for scale** — identify bottlenecks and design for horizontal scaling.\n5. **Add observability** — logging, metrics, and alerting for this feature.\n\nStart by asking me clarifying questions about my specific requirements, existing tech stack, and scale targets. Then produce a phased implementation plan.\n"))))))))

/-- `generateBuildPrompt` of `src/lib/prompt-generator.ts`: the legacy
system-record prompt.  `Object.entries(system.scale)` is the `scale` list in
insertion order; `.join('\n')` and `.join('; ')` are `String.intercalate`. -/
def generateBuildPrompt (system : SystemDesign) : String :=
  let scaleLines := String.intercalate "\n"
    (system.scale.map (fun kv => "- " ++ (kv.1 ++ (": " ++ kv.2))))
  let funcReqs := String.intercalate "\n"
    (system.requirements.functional.map (fun r => "- " ++ r))
  let nonFuncReqs := String.intercalate "\n"
    (system.requirements.nonFunctional.map (fun r => "- " ++ r))
  let components := String.intercalate "\n\n"
    (system.components.map (fun c => "### " ++ (c.name ++ ("\n" ++ c.description))))
  let deepDives := String.intercalate "\n\n"
    (system.deepDive.map (fun d => "### " ++ (d.title ++ ("\n" ++ d.content))))
  let tradeoffs := String.intercalate "\n\n"
    (system.tradeoffs.map (fun t => "### " ++ (t.decision ++ ("\n**Pros:** " ++
      (String.intercalate "; " t.pros ++ ("\n**Cons:** " ++ String.intercalate "; " t.cons))))))
  "# Build a " ++ (system.name ++ ("-like System\n\nYou are an expert software architect. I want to build a production-grade application inspired by " ++ (system.name ++ (" (" ++ (system.tagline ++ (").\n\nUse the following system design reference to guide the architecture, tech choices, and implementation. Adapt it to my specific needs while preserving the key architectural patterns that make this system work at scale.\n\n---\n\n## Overview\n" ++ (system.overview ++ ("\n\n## Target Scale\n" ++ (scaleLines ++ ("\n\n## Functional Requirements\n" ++ (funcReqs ++ ("\n\n## Non-Functional Requirements\n" ++ (nonFuncReqs ++ ("\n\n## Architecture Components\n" ++ (components ++ ("\n\n## Data Model (Mermaid ER Diagram)\n```mermaid\n" ++ (system.dataModel ++ ("\n```\n\n## Key Architectural Deep Dives\n" ++ (deepDives ++ ("\n\n## Tradeoffs to Consider\n" ++ (tradeoffs ++ ("\n\n---\n\n## Instructions\n\nBased on the architecture above, please:\n\n1. **Choose a modern tech stack** appropriate for my team size and scale targets. Justify each choice.\n2. **Design the database schema** with proper indexes, partitioning strategy, and replication approach.\n3. **Implement the core services** starting with the most critical path (e.g., message delivery for messaging, feed generation for social).\n4. **Set up the infrastructure** with containerization, CI/CD, monitoring, and observability.\n5. **Plan for scale** — identify the components that will need horizontal scaling first and design them to be stateless where possible.\n\nStart by asking me clarifying questions about my specific requirements, team size, budget, and timeline. Then produce a phased implementation plan.\n"))))))))))))))))))))))

/-- `generateGuidePrompt` of `src/lib/prompt-generator.ts`: the legacy
guide-record prompt.  The `(a, i)` index of the JS `.map` is modelled with
`List.enum` (zero-based, so the heading uses `i + 1`). -/
def generateGuidePrompt (guide : FeatureGuide) : String :=
  let approaches := String.intercalate "\n\n"
    (guide.approaches.enum.map (fun ia => "### Approach " ++ (toString (ia.1 + 1) ++ (": " ++
      (ia.2.name ++ ("\n" ++ (ia.2.description ++ ("\n**Pros:** " ++
        (String.intercalate "; " ia.2.pros ++ ("\n**Cons:** " ++ String.intercalate "; " ia.2.cons))))))))))
  let components := String.intercalate "\n\n"
    (guide.components.map (fun c => "### " ++ (c.name ++ ("\n" ++ c.description))))
  let deepDives := String.intercalate "\n\n"
    (guide.deepDive.map (fun d => "### " ++ (d.title ++ ("\n" ++ d.content))))
  let examples := String.intercalate "\n"
    (guide.realWorldExamples.map (fun e => "- **" ++ (e.system ++ ("**: " ++ e.approach))))
  let tradeoffs := String.intercalate "\n\n"
    (guide.tradeoffs.map (fun t => "### " ++ (t.decision ++ ("\n**Pros:** " ++
      (String.intercalate "; " t.pros ++ ("\n**Cons:** " ++ String.intercalate "; " t.cons))))))
  "# How to Build: " ++ (guide.title ++ ("\n\nYou are an expert software architect. I want to implement " ++ (jsToLowerCase guide.title ++ (" in my application. (" ++ (guide.tagline ++ (").\n\nUse the following architectural guide to inform the design. Adapt it to my specific needs while preserving the key patterns.\n\n---\n\n## Problem\n" ++ (guide.problem ++ ("\n\n## Architectural Approaches\n" ++ (approaches ++ ("\n\n## Key Components\n" ++ (components ++ ("\n\n## Data Model (Mermaid ER Diagram)\n```mermaid\n" ++ (guide.dataModel ++ ("\n```\n\n## Deep Dives\n" ++ (deepDives ++ ("\n\n## Real-World Examples\n" ++ (examples ++ ("\n\n## Tradeoffs\n" ++ (tradeoffs ++ ("\n\n---\n\n## Instructions\n\nBased on the architecture above, please:\n\n1. **Recommend an approach** best suited for my scale, team, and constraints. Justify the choice.\n2. **Design the data model** with proper indexes, partitioning, and storage strategy.\n3. **Implement the core logic** with production-ready error handling and edge cases.\n4. **Plan for scale** — identify bottlenecks and design for horizontal scaling.\n5. **Add observability** — logging, metrics, and alerting for this feature.\n\nStart by asking me clarifying questions about my specific requirements, existing tech stack, and scale targets. Then produce a phased implementation plan.\n"))))))))))))))))))))

/-! ### Specification-side definitions

The following definitions restate, in the spec's own words, the output
format that §4.4 of the specification prescribes for the prompt generators:
the exact title line, the instruction paragraph, the section order and
headings, the `- {key}: {value}` scale bullets, the `### {name}` component
blocks, the `### {title}` + content deep-dive blocks (without the optional
diagram), and the `### {decision}` / `**Pros:** …` / `**Cons:** …`
trade-off blocks, followed by the fixed `## Instructions` block.  They are
written independently of the source transcription above and are compared
with it in the theorems below. -/

/-- The five numbered directives of the system-prompt `## Instructions`
block (identical in `generateBuildPrompt` and `generateBuildPromptFromMdx`). -/
def sysInstructionsDirectives : String :=
  "1. **Choose a modern tech stack** appropriate for my team size and scale targets. Justify each choice.\n2. **Design the database schema** with proper indexes, partitioning strategy, and replication approach.\n3. **Implement the core services** starting with the most critical path (e.g., message delivery for messaging, feed generation for social).\n4. **Set up the infrastructure** with containerization, CI/CD, monitoring, and observability.\n5. **Plan for scale** — identify the components that will need horizontal scaling first and design them to be stateless where possible."

/-- The closing clarifying-questions sentence of the system-prompt
`## Instructions` block. -/
def sysInstructionsClosing : String :=
  "Start by asking me clarifying questions about my specific requirements, team size, budget, and timeline. Then produce a phased implementation plan.\n"

/-- The entire fixed `## Instructions` block of the system prompts. -/
def sysInstructionsBlock : String :=
  "## Instructions\n\nBased on the architecture above, please:\n\n" ++
    (sysInstructionsDirectives ++ ("\n\n" ++ sysInstructionsClosing))

/-- The five numbered directives of the guide-prompt `## Instructions`
block (identical in `generateGuidePrompt` and `generateGuidePromptFromMdx`). -/
def guideInstructionsDirectives : String :=
  "1. **Recommend an approach** best suited for my scale, team, and constraints. Justify the choice.\n2. **Design the data model** with proper indexes, partitioning, and storage strategy.\n3. **Implement the core logic** with production-ready error handling and edge cases.\n4. **Plan for scale** — identify bottlenecks and design for horizontal scaling.\n5. **Add observability** — logging, metrics, and alerting for this feature."

/-- The closing clarifying-questions sentence of the guide-prompt
`## Instructions` block. -/
def guideInstructionsClosing : String :=
  "Start by asking me clarifying questions about my specific requirements, existing tech stack, and scale targets. Then produce a phased implementation plan.\n"

/-- The entire fixed `## Instructions` block of the guide prompts. -/
def guideInstructionsBlock : String :=
  "## Instructions\n\nBased on the architecture above, please:\n\n" ++
    (guideInstructionsDirectives ++ ("\n\n" ++ guideInstructionsClosing))

/-- The instruction paragraph of a system prompt: names the system and its
tagline, then directs the reader to adapt the architecture. -/
def specSystemIntro (name tagline : String) : String :=
  "You are an expert software architect. I want to build a production-grade application inspired by " ++
    (name ++ (" (" ++ (tagline ++ (").\n\n" ++
      "Use the following system design reference to guide the architecture, tech choices, and implementation. Adapt it to my specific needs while preserving the key architectural patterns that make this system work at scale."))))

/-- The instruction paragraph of a guide prompt: references the lower-cased
title and the tagline. -/
def specGuideIntro (title tagline : String) : String :=
  "You are an expert software architect. I want to implement " ++
    (jsToLowerCase title ++ (" in my application. (" ++ (tagline ++ (").\n\n" ++
      "Use the following architectural guide to inform the design. Adapt it to my specific needs while preserving the key patterns."))))

/-- One scale entry rendered as the bullet `- {key}: {value}`. -/
def specScaleBullet (e : String × String) : String :=
  "- " ++ (e.1 ++ (": " ++ e.2))

/-- The `## Target Scale` body: one bullet per scale entry, in map order. -/
def specScaleLines (scale : List (String × String)) : String :=
  String.intercalate "\n" (scale.map specScaleBullet)

/-- A requirements list rendered as `- {item}` bullets. -/
def specBulletList (items : List String) : String :=
  String.intercalate "\n" (items.map (fun r => "- " ++ r))

/-- One component rendered as `### {name}` followed by its description. -/
def specComponentBlock (c : ComponentItem) : String :=
  "### " ++ (c.name ++ ("\n" ++ c.description))

/-- The `## Architecture Components` body, blocks separated by blank lines. -/
def specComponentList (l : List ComponentItem) : String :=
  String.intercalate "\n\n" (l.map specComponentBlock)

/-- One deep-dive item rendered as `### {title}` plus its content.  The
optional `diagram` field contributes nothing. -/
def specDeepDiveBlock (d : DeepDiveItem) : String :=
  "### " ++ (d.title ++ ("\n" ++ d.content))

/-- The deep-dives body, blocks separated by blank lines. -/
def specDeepDiveList (l : List DeepDiveItem) : String :=
  String.intercalate "\n\n" (l.map specDeepDiveBlock)

/-- One trade-off rendered as `### {decision}`, a line
`**Pros:** {pros joined by "; "}` and a line `**Cons:** {cons joined by "; "}`. -/
def specTradeoffBlock (t : TradeoffItem) : String :=
  "### " ++ (t.decision ++ ("\n" ++ ("**Pros:** " ++
    (String.intercalate "; " t.pros ++ ("\n" ++ ("**Cons:** " ++
      String.intercalate "; " t.cons))))))

/-- The trade-offs body, blocks separated by blank lines. -/
def specTradeoffList (l : List TradeoffItem) : String :=
  String.intercalate "\n\n" (l.map specTradeoffBlock)

/-- One approach rendered as `### Approach {1-based index}: {name}`, its
description, and the same pros/cons line format as the trade-offs. -/
def specApproachList (l : List ApproachItem) : String :=
  String.intercalate "\n\n" (l.enum.map (fun ia =>
    "### Approach " ++ (toString (ia.1 + 1) ++ (": " ++ (ia.2.name ++ ("\n" ++
      (ia.2.description ++ ("\n" ++ ("**Pros:** " ++
        (String.intercalate "; " ia.2.pros ++ ("\n" ++ ("**Cons:** " ++
          String.intercalate "; " ia.2.cons))))))))))))

/-- One real-world example rendered as the bullet `- **{system}**: {approach}`. -/
def specRealWorldList (l : List RealWorldExampleItem) : String :=
  String.intercalate "\n" (l.map (fun e => "- **" ++ (e.system ++ ("**: " ++ e.approach))))

/-- The nine legacy system-prompt sections in the order the spec fixes:
Overview, Target Scale, Functional Requirements, Non-Functional
Requirements, Architecture Components, Data Model, Key Architectural Deep
Dives, Tradeoffs to Consider (the ninth, Instructions, is appended by
`specBuildDoc`'s caller). -/
def specBuildSections (s : SystemDesign) : String :=
  "## Overview\n" ++ (s.overview ++ ("\n\n" ++ ("## Target Scale\n" ++ (specScaleLines s.scale ++ ("\n\n" ++ ("## Functional Requirements\n" ++ (specBulletList s.requirements.functional ++ ("\n\n" ++ ("## Non-Functional Requirements\n" ++ (specBulletList s.requirements.nonFunctional ++ ("\n\n" ++ ("## Architecture Components\n" ++ (specComponentList s.components ++ ("\n\n" ++ ("## Data Model (Mermaid ER Diagram)\n" ++ ("```mermaid\n" ++ (s.dataModel ++ ("\n```" ++ ("\n\n" ++ ("## Key Architectural Deep Dives\n" ++ (specDeepDiveList s.deepDive ++ ("\n\n" ++ ("## Tradeoffs to Consider\n" ++ (specTradeoffList s.tradeoffs))))))))))))))))))))))))

/-- Everything of a legacy system prompt before the `## Instructions`
block: the exact title line, the instruction paragraph and the eight
content sections, separated by `---` rules. -/
def specBuildDoc (s : SystemDesign) : String :=
  "# Build a " ++ (s.name ++ ("-like System" ++ ("\n\n" ++
    (specSystemIntro s.name s.tagline ++ ("\n\n---\n\n" ++
      (specBuildSections s ++ "\n\n---\n\n"))))))

/-- The seven legacy guide-prompt sections in the order the spec fixes:
Problem, Architectural Approaches, Key Components, Data Model, Deep Dives,
Real-World Examples, Tradeoffs. -/
def specGuideSections (g : FeatureGuide) : String :=
  "## Problem\n" ++ (g.problem ++ ("\n\n" ++ ("## Architectural Approaches\n" ++ (specApproachList g.approaches ++ ("\n\n" ++ ("## Key Components\n" ++ (specComponentList g.components ++ ("\n\n" ++ ("## Data Model (Mermaid ER Diagram)\n" ++ ("```mermaid\n" ++ (g.dataModel ++ ("\n```" ++ ("\n\n" ++ ("## Deep Dives\n" ++ (specDeepDiveList g.deepDive ++ ("\n\n" ++ ("## Real-World Examples\n" ++ (specRealWorldList g.realWorldExamples ++ ("\n\n" ++ ("## Tradeoffs\n" ++ (specTradeoffList g.tradeoffs)))))))))))))))))))))

/-- Everything of a legacy guide prompt before the `## Instructions` block. -/
def specGuideDoc (g : FeatureGuide) : String :=
  "# How to Build: " ++ (g.title ++ ("\n\n" ++
    (specGuideIntro g.title g.tagline ++ ("\n\n---\n\n" ++
      (specGuideSections g ++ "\n\n---\n\n")))))

/-- Everything of a schema-document system prompt before the
`## Instructions` block: title line, instruction paragraph, and a single
`## System Design Reference` section holding the body verbatim. -/
def specMdxSystemDoc (name tagline body : String) : String :=
  "# Build a " ++ (name ++ ("-like System" ++ ("\n\n" ++
    (specSystemIntro name tagline ++ ("\n\n---\n\n" ++
      ("## System Design Reference\n" ++ (body ++ "\n\n---\n\n")))))))

/-- Everything of a schema-document guide prompt before the
`## Instructions` block: title line, instruction paragraph, and the body
verbatim with no subheading. -/
def specMdxGuideDoc (title tagline body : String) : String :=
  "# How to Build: " ++ (title ++ ("\n\n" ++
    (specGuideIntro title tagline ++ ("\n\n---\n\n" ++
      (body ++ "\n\n---\n\n")))))

/-- The first line of a string: its characters up to (excluding) the first
newline. -/
def firstLine (s : String) : String :=
  ⟨s.data.takeWhile (fun c => c != '\n')⟩

/-- The `googleDrive` legacy record, transcribed from `src/data/google-drive.ts`. -/
def googleDrive : SystemDesign where
  slug := "google-drive"
  name := "Google Drive"
  tagline := "Cloud file storage and real-time collaboration at planetary scale"
  category := Category.productivity
  tags := ["storage", "collaboration", "sync", "sharing", "cloud", "google"]
  overview := "Google Drive is a cloud storage and file synchronization service used by 1B+ users and deeply integrated with Google Workspace (Docs, Sheets, Slides). Its architecture handles petabytes of user files, real-time multi-user collaboration on documents, granular sharing permissions, cross-device sync, and full-text search across stored files. Drive must provide strong consistency for collaborative editing while maintaining high availability and low-latency file access globally. It leverages Google\u0027s Colossus distributed filesystem and Spanner database for its storage backbone."
  scale := [("Users", "1B+"), ("Files stored", "Trillions"), ("Storage capacity", "Exabytes"), ("Daily active collaborators", "100M+")]
  requirements :=
    { functional := [
        "File upload, download, and preview for 100+ file types",
        "Real-time collaborative editing (Docs, Sheets, Slides)",
        "Folder hierarchy and organizational shortcuts",
        "Granular sharing permissions (viewer, commenter, editor)",
        "Cross-device sync (desktop, mobile, web)",
        "Full-text search across files including scanned documents (OCR)",
        "Version history and trash recovery"],
      nonFunctional := [
        "Strong consistency for collaborative edits",
        "High availability (99.99%+ uptime)",
        "Low-latency file access via global CDN",
        "Durability — no data loss (11 nines)",
        "Efficient sync — delta updates for large files",
        "Compliance: DLP, retention policies, audit logs"] }
  highLevelDiagram := "graph TB\n    subgraph Clients\n        WEB[Web App]\n        DESK[Desktop Sync Client]\n        MOB[Mobile App]\n        API_C[Drive API]\n    end\n    subgraph Edge[\"Edge Layer\"]\n        CDN[Google CDN]\n        LB[Load Balancer]\n    end\n    subgraph Services[\"Core Services\"]\n        META[Metadata Service]\n        UPLOAD[Upload Service]\n        SYNC[Sync Service]\n        COLLAB[Collaboration Engine]\n        SEARCH[Search Service]\n        SHARE[Sharing Service]\n        PREVIEW[Preview Generator]\n    end\n    subgraph Storage[\"Storage Layer\"]\n        SPANNER[(Spanner - Metadata)]\n        COLOSSUS[(Colossus - File Blobs)]\n        INDEX[(Search Index)]\n        CACHE[(Memcache)]\n    end\n    WEB & DESK & MOB & API_C --> CDN & LB\n    LB --> META & UPLOAD & SYNC & COLLAB & SEARCH & SHARE\n    CDN --> COLOSSUS\n    UPLOAD --> COLOSSUS\n    META --> SPANNER & CACHE\n    SYNC --> SPANNER\n    COLLAB --> SPANNER\n    SEARCH --> INDEX\n    PREVIEW --> COLOSSUS"
  components := [
    ⟨"Metadata Service",
      "Manages file and folder metadata — names, hierarchy, permissions, version history, and timestamps. Backed by Spanner for globally consistent reads and writes. Every file operation (create, move, rename, share) is a metadata transaction."⟩,
    ⟨"Upload Service",
      "Handles file uploads with resumable upload support for large files. Files are chunked, deduplicated (content-addressed), and written to Colossus. Supports delta uploads — only changed blocks of a file are transmitted."⟩,
    ⟨"Sync Service",
      "Keeps desktop and mobile clients in sync with the cloud state. Uses a change-feed model — clients poll for changes since their last sync token. Conflict resolution uses last-writer-wins for file replacements and OT/CRDT for collaborative docs."⟩,
    ⟨"Collaboration Engine",
      "Powers real-time multi-user editing in Docs, Sheets, and Slides. Uses Operational Transformation (OT) to merge concurrent edits from multiple users. Each keystroke is an operation that is transformed against concurrent operations to maintain consistency."⟩,
    ⟨"Search Service",
      "Indexes file names, content (extracted text), and metadata. Supports queries like \"from:alice type:pdf budget\". Uses OCR to index text in scanned documents and images. Search respects sharing permissions — users only see files they have access to."⟩,
    ⟨"Sharing Service",
      "Manages the access control list (ACL) for every file and folder. Supports individual sharing, group sharing, link sharing (anyone with link), and organizational policies. Permissions inherit down folder hierarchies with override capability."⟩,
    ⟨"Preview Generator",
      "Generates previews and thumbnails for 100+ file types (PDF, Office docs, images, videos). Runs asynchronously after upload. Previews are cached at the CDN for fast subsequent access."⟩]
  dataModel := "erDiagram\n    FILE \x7b\n        string file_id PK\n        string name\n        string mime_type\n        bigint size_bytes\n        string parent_id FK\n        string owner_id FK\n        int version\n        string content_hash\n        boolean trashed\n        timestamp modified_at\n    \x7d\n    USER \x7b\n        string user_id PK\n        string email\n        bigint quota_bytes\n        bigint used_bytes\n    \x7d\n    PERMISSION \x7b\n        string permission_id PK\n        string file_id FK\n        string grantee_id\n        enum grantee_type\n        enum role\n        timestamp created_at\n    \x7d\n    REVISION \x7b\n        string revision_id PK\n        string file_id FK\n        string modifier_id FK\n        bigint size_bytes\n        timestamp created_at\n    \x7d\n    USER ||--o\x7b FILE : owns\n    FILE ||--o\x7b PERMISSION : has\n    FILE ||--o\x7b REVISION : has_versions"
  deepDive := [
    ⟨"Operational Transformation for Real-time Collaboration",
      "Google Docs\u0027 real-time collaboration is powered by **Operational Transformation (OT)**, a consistency algorithm that allows multiple users to edit the same document simultaneously.\n\n**How OT works**: Each user\u0027s edit is represented as an operation (insert character at position X, delete range Y-Z). When two users edit concurrently, their operations may conflict. OT transforms one operation against the other so that both can be applied in any order and reach the same final state.\n\n**Server as authority**: Google\u0027s OT implementation uses a central server as the source of truth. Each client sends operations to the server, which transforms them against any concurrent operations it has already accepted, then broadcasts the transformed operation to all other clients.\n\n**Revision history**: Every accepted operation increments the document\u0027s revision number. The server stores the full operation log, which enables undo, version history, and \"see changes\" features.\n\n**Cursor and selection**: User cursors and selections are also synced via OT. When a remote user inserts text before your cursor, your cursor position is automatically adjusted by transforming it against the insert operation.",
      some "sequenceDiagram\n    participant A as User A\n    participant S as Server\n    participant B as User B\n    A->>S: Insert \"X\" at pos 3 (rev 5)\n    B->>S: Delete pos 2 (rev 5)\n    S->>S: Transform: A\u0027s insert shifts to pos 2 after B\u0027s delete\n    S->>A: Transformed delete at pos 2\n    S->>B: Transformed insert at pos 2\n    Note over A,B: Both reach same document state"⟩,
    ⟨"Colossus and Content-Addressed Storage",
      "File blobs in Google Drive are stored on **Colossus**, Google\u0027s next-generation distributed filesystem (successor to GFS).\n\n**Content-addressed storage**: Files are chunked into fixed-size blocks, and each block is identified by its content hash (SHA-256). Identical blocks across different files are stored only once (deduplication). This is especially effective for versioned files where only a few blocks change between versions.\n\n**Erasure coding**: Rather than storing three full replicas of each block (3x storage overhead), Colossus uses Reed-Solomon erasure coding. A block is encoded into N data chunks + M parity chunks, and any N of the N+M chunks can reconstruct the original. This achieves the same durability as 3x replication at ~1.5x storage overhead.\n\n**Tiered storage**: Frequently accessed files are kept on SSDs, while older files migrate to spinning disks and eventually to cold storage tape. The metadata service tracks the storage tier and handles transparent retrieval.\n\n**Global replication**: For Drive, files are replicated across multiple data center regions for disaster recovery. The metadata in Spanner records which regions hold copies of each file.",
      none⟩,
    ⟨"Desktop Sync and Conflict Resolution",
      "Google Drive\u0027s desktop sync client must keep a local folder in perfect sync with the cloud state, handling offline edits, concurrent changes, and network interruptions.\n\n**Change feed**: The client maintains a sync cursor (a change token). Periodically, it asks the server for all changes since that cursor. The server returns a list of file metadata changes (created, modified, moved, deleted, permission changed).\n\n**File streaming vs mirroring**: Drive offers two modes. \"Streaming\" keeps files in the cloud and downloads on access (using a virtual filesystem). \"Mirroring\" maintains full local copies. Streaming drastically reduces disk usage but requires connectivity.\n\n**Conflict resolution**: When the same file is edited both locally (offline) and remotely, Drive creates a conflict copy (\"filename (conflict copy)\") rather than silently overwriting. For Google Docs files, OT handles conflicts at the operation level, so no conflict copies are needed.\n\n**Delta sync**: For large files, the client computes a rolling checksum (similar to rsync) to identify changed blocks and uploads only those blocks. The server reassembles the file from existing and new blocks.",
      none⟩]
  tradeoffs := [
    ⟨"Operational Transformation over CRDTs",
      ["Proven at Google\u0027s scale for 15+ years", "Central server simplifies conflict resolution", "Smaller operation payloads than CRDT state"],
      ["Requires a central server — no true P2P", "Transform functions are complex and error-prone to implement", "Harder to add new operation types"]⟩,
    ⟨"Content-addressed storage with deduplication",
      ["Massive storage savings across billions of files", "Efficient versioning — only new blocks stored", "Built-in integrity verification via hashes"],
      ["Hash computation adds upload latency", "Garbage collection of unreferenced blocks is complex", "Dedup ratio varies by file type"]⟩,
    ⟨"Spanner for metadata over traditional RDBMS",
      ["Global consistency with external consistency guarantee", "Horizontal scaling without manual sharding", "Multi-region replication built-in"],
      ["Higher latency for writes due to TrueTime synchronization", "Complex operational model", "Vendor lock-in to Google infrastructure"]⟩]

/-- A minimal system record used as a concrete input by witness theorems. -/
def mkTestSystem (sl nm : String) (cat : Category) (tg : List String) : SystemDesign :=
  ⟨sl, nm, "a tagline", cat, tg, "an overview", [("Users", "1M")], ⟨["f1"], ["n1"]⟩,
   "graph TB", [⟨"Comp", "Desc"⟩], "erDiagram", [⟨"Dive", "Body", none⟩],
   [⟨"X", ["a", "b"], ["c"]⟩]⟩

/-- A minimal guide record used as a concrete input by witness theorems. -/
def mkTestGuide (sl ti : String) (cat : GuideCategory) (tg : List String) : FeatureGuide :=
  ⟨sl, ti, "a tagline", cat, tg, "a problem", [⟨"App", "Desc", ["p"], ["c"]⟩],
   "graph TB", [⟨"Comp", "Desc"⟩], "erDiagram", [⟨"Dive", "Body", none⟩],
   [⟨"Sys", "How"⟩], [⟨"X", ["a"], ["b"]⟩]⟩

/-- A concrete record for the independence witness. -/
def testSystemA : SystemDesign :=
  ⟨"slug-a", "Acme", "tag", .messaging, ["x"], "ov", [("Users", "1M")], ⟨["f1"], ["n1"]⟩,
   "diagram-a", [⟨"C", "D"⟩], "dm", [⟨"T", "K", some "dd"⟩], [⟨"X", ["a", "b"], ["c"]⟩]⟩

/-- `testSystemA` with different `slug`, `tags`, `highLevelDiagram` and
deep-dive `diagram` fields, and every other field identical. -/
def testSystemB : SystemDesign :=
  ⟨"slug-b", "Acme", "tag", .messaging, ["y", "z"], "ov", [("Users", "1M")], ⟨["f1"], ["n1"]⟩,
   "diagram-b", [⟨"C", "D"⟩], "dm", [⟨"T", "K", none⟩], [⟨"X", ["a", "b"], ["c"]⟩]⟩

/-- The legacy system prompt equals the spec-side rendering: document part
followed by the fixed instructions block. -/
theorem buildPrompt_refines (s : SystemDesign) :
    generateBuildPrompt s = specBuildDoc s ++ sysInstructionsBlock := by
  simp only [generateBuildPrompt, specBuildDoc, specBuildSections, specSystemIntro,
    sysInstructionsBlock, String.append_assoc]
  rfl

/-- The legacy guide prompt equals the spec-side rendering. -/
theorem guidePrompt_refines (g : FeatureGuide) :
    generateGuidePrompt g = specGuideDoc g ++ guideInstructionsBlock := by
  simp only [generateGuidePrompt, specGuideDoc, specGuideSections, specGuideIntro,
    guideInstructionsBlock, String.append_assoc]
  rfl

/-- The schema-document system prompt equals the spec-side rendering. -/
theorem mdxBuildPrompt_refines (n t b : String) :
    generateBuildPromptFromMdx ⟨⟨n, t⟩, some b⟩ = specMdxSystemDoc n t b ++ sysInstructionsBlock := by
  simp only [generateBuildPromptFromMdx, specMdxSystemDoc, specSystemIntro,
    sysInstructionsBlock, String.append_assoc]
  rfl

/-- The schema-document guide prompt equals the spec-side rendering. -/
theorem mdxGuidePrompt_refines (ti tg b : String) :
    generateGuidePromptFromMdx ⟨⟨ti, tg⟩, some b⟩ = specMdxGuideDoc ti tg b ++ guideInstructionsBlock := by
  simp only [generateGuidePromptFromMdx, specMdxGuideDoc, specGuideIntro,
    guideInstructionsBlock, String.append_assoc]
  rfl

/-- An absent body is treated as the empty string. -/
theorem mdxBuildPrompt_none (n t : String) :
    generateBuildPromptFromMdx ⟨⟨n, t⟩, none⟩ = specMdxSystemDoc n t "" ++ sysInstructionsBlock := by
  simp only [generateBuildPromptFromMdx, specMdxSystemDoc, specSystemIntro,
    sysInstructionsBlock, String.append_assoc]
  rfl

/-- An absent guide body is treated as the empty string. -/
theorem mdxGuidePrompt_none (ti tg : String) :
    generateGuidePromptFromMdx ⟨⟨ti, tg⟩, none⟩ = specMdxGuideDoc ti tg "" ++ guideInstructionsBlock := by
  simp only [generateGuidePromptFromMdx, specMdxGuideDoc, specGuideIntro,
    guideInstructionsBlock, String.append_assoc]
  rfl

/-! ### Helper lemmas -/

/-- Membership is preserved by first-occurrence deduplication. -/
theorem mem_setDedup (t : String) : ∀ (l : List String), t ∈ setDedup l ↔ t ∈ l
  | [] => by simp [setDedup]
  | x :: xs => by
    rw [setDedup]
    by_cases h : t = x
    · simp [h]
    · have ih := mem_setDedup t (xs.filter (fun y => y ≠ x))
      simp only [List.mem_cons, ih, List.mem_filter] at *
      simp [h]
termination_by l => l.length
decreasing_by
  simpa using Nat.lt_succ_of_le (List.length_filter_le _ xs)

/-- First-occurrence deduplication yields a duplicate-free list. -/
theorem nodup_setDedup : ∀ (l : List String), (setDedup l).Nodup
  | [] => by simp [setDedup]
  | x :: xs => by
    rw [setDedup]
    refine List.nodup_cons.mpr ⟨?_, nodup_setDedup (xs.filter (fun y => y ≠ x))⟩
    intro hmem
    have := (mem_setDedup x _).mp hmem
    simp at this
termination_by l => l.length
decreasing_by
  simpa using Nat.lt_succ_of_le (List.length_filter_le _ xs)

/-- `find?` returns the head of the first satisfying block: everything
before it fails the predicate, and anything after it is ignored. -/
theorem find_first_match {α : Type} (p : α → Bool) (pre : List α) (a : α) (post : List α)
    (hpre : ∀ x ∈ pre, ¬ p x) (ha : p a) :
    (pre ++ a :: post).find? p = some a := by
  induction pre with
  | nil => simp [List.find?, ha]
  | cons y ys ih =>
    have hy : p y = false := by
      have := hpre y (by simp)
      simpa using this
    simp only [List.cons_append, List.find?, hy]
    exact ih (fun x hx => hpre x (by simp [hx]))

/-- `takeWhile` passes over a leading block that satisfies the predicate. -/
theorem takeWhile_append_all {p : Char → Bool} :
    ∀ {l₁ l₂ : List Char}, (∀ c ∈ l₁, p c = true) →
      (l₁ ++ l₂).takeWhile p = l₁ ++ l₂.takeWhile p
  | [], l₂, _ => by simp
  | c :: l₁, l₂, h => by
    have hc : p c = true := h c (by simp)
    simp only [List.cons_append, List.takeWhile_cons, hc, if_true]
    rw [takeWhile_append_all (fun x hx => h x (by simp [hx]))]

/-- The first line of `A ++ name ++ B ++ "\n" ++ rest` is `A ++ name ++ B`
when `A`, `name` and `B` contain no newline. -/
theorem firstLine_of_split (A name B rest : String)
    (hA : ∀ c ∈ A.data, c ≠ '\n') (h : ∀ c ∈ name.data, c ≠ '\n')
    (hB : ∀ c ∈ B.data, c ≠ '\n') :
    firstLine (A ++ (name ++ (B ++ ("\n" ++ rest)))) = A ++ (name ++ B) := by
  apply String.ext
  show List.takeWhile _ (A ++ (name ++ (B ++ ("\n" ++ rest)))).data = _
  have hd : (A ++ (name ++ (B ++ ("\n" ++ rest)))).data =
      A.data ++ (name.data ++ (B.data ++ ('\n' :: rest.data))) := by
    simp [String.data_append]
  rw [hd]
  have conv1 : ∀ c ∈ A.data, (c != '\n') = true := fun c hc => by simpa using hA c hc
  have conv2 : ∀ c ∈ name.data, (c != '\n') = true := fun c hc => by simpa using h c hc
  have conv3 : ∀ c ∈ B.data, (c != '\n') = true := fun c hc => by simpa using hB c hc
  rw [takeWhile_append_all conv1, takeWhile_append_all conv2, takeWhile_append_all conv3]
  simp [String.data_append, List.takeWhile_cons]

/-- The legacy system prompt with the title line split off: the character
after the title text is a newline. -/
theorem buildPrompt_title_split (s : SystemDesign) :
    generateBuildPrompt s = "# Build a " ++ (s.name ++ ("-like System" ++ ("\n" ++
      ("\n" ++ (specSystemIntro s.name s.tagline ++ ("\n\n---\n\n" ++
        (specBuildSections s ++ ("\n\n---\n\n" ++ sysInstructionsBlock)))))))) := by
  simp only [generateBuildPrompt, specBuildSections, specSystemIntro,
    sysInstructionsBlock, String.append_assoc]
  rfl

/-! ### Claim theorems -/

/-- C1: for every `SystemDesign` record, `generateBuildPrompt` returns the
Markdown document equal to `specBuildDoc` (title line
`# Build a {name}-like System`, instruction paragraph, then the sections in
the fixed order Overview, Target Scale, Functional Requirements,
Non-Functional Requirements, Architecture Components, Data Model, Key
Architectural Deep Dives, Tradeoffs to Consider — with scale entries as
`- {key}: {value}` bullets in map order, trade-offs as `### {decision}` with
`**Pros:** …`/`**Cons:** …` lines, and deep dives as `### {title}` plus
content only, never the optional diagram) followed by the fixed
`## Instructions` block; and when the name has no newline, the output's
first line is exactly `# Build a {name}-like System`. -/
theorem buildPrompt_spec_format (s : SystemDesign) :
    generateBuildPrompt s = specBuildDoc s ++ sysInstructionsBlock ∧
    ((∀ c ∈ s.name.data, c ≠ '\n') →
      firstLine (generateBuildPrompt s) = "# Build a " ++ (s.name ++ "-like System")) := by
  refine ⟨buildPrompt_refines s, fun h => ?_⟩
  rw [buildPrompt_title_split s]
  exact firstLine_of_split "# Build a " s.name "-like System" _ (by decide) h (by decide)

/-- C1 witness: the generated Google Drive prompt's first line. -/
theorem buildPrompt_spec_format_witness :
    firstLine (generateBuildPrompt googleDrive) = "# Build a " ++ ("Google Drive" ++ "-like System") :=
  (buildPrompt_spec_format googleDrive).2 (by decide)

/-- C2: for every schema-document system entry, `generateBuildPromptFromMdx`
returns the title line, the instruction paragraph, a single
`## System Design Reference` section holding the body verbatim, and then the
closing `## Instructions` block — and that block, `sysInstructionsBlock`, is
character-for-character the block the legacy `generateBuildPrompt` ends
with. -/
theorem mdxBuildPrompt_matches_legacy :
    (∀ n t b : String, generateBuildPromptFromMdx ⟨⟨n, t⟩, some b⟩ =
        specMdxSystemDoc n t b ++ sysInstructionsBlock) ∧
    (∀ s : SystemDesign, ∃ p, generateBuildPrompt s = p ++ sysInstructionsBlock) :=
  ⟨mdxBuildPrompt_refines, fun s => ⟨specBuildDoc s, buildPrompt_refines s⟩⟩

/-- C3: the `categoryLabels` and `categoryColors` maps are total — every
category value a system record can use has an entry in both — and in
particular `productivity`, the category of the Google Drive record,
resolves to the label `Productivity` and to a present color token. -/
theorem category_maps_cover_all_categories :
    (∀ s : SystemDesign, (categoryLabels.lookup s.category).isSome = true ∧
        (categoryColors.lookup s.category).isSome = true) ∧
    googleDrive.category = Category.productivity ∧
    categoryLabels.lookup Category.productivity = some "Productivity" ∧
    (categoryColors.lookup Category.productivity).isSome = true := by
  refine ⟨fun s => ?_, rfl, rfl, rfl⟩
  cases h : s.category <;> exact ⟨rfl, rfl⟩

/-- C4: the per-system OG route's accent color falls back to the literal
`#6b4c3b` for every category absent from its local seven-entry table (such
as `productivity`), and uses the table entry for every category present. -/
theorem og_accent_color_fallback :
    (∀ c : Category, ogSystemCategoryColor.lookup c.jsName = none →
        ogSystemAccentColor c = "#6b4c3b") ∧
    (∀ (c : Category) (v : String), ogSystemCategoryColor.lookup c.jsName = some v →
        ogSystemAccentColor c = v) ∧
    ogSystemCategoryColor.lookup (Category.productivity).jsName = none ∧
    ogSystemAccentColor Category.productivity = "#6b4c3b" ∧
    ogSystemCategoryColor.length = 7 := by
  refine ⟨fun c h => ?_, fun c v h => ?_, rfl, rfl, rfl⟩
  · simp [ogSystemAccentColor, h]
  · simp [ogSystemAccentColor, h]

/-- C4 witness: `video` is absent from the table and falls back;
`messaging` is present and resolves to its table entry. -/
theorem og_accent_color_fallback_witness :
    ogSystemAccentColor Category.video = "#6b4c3b" ∧
    ogSystemAccentColor Category.messaging = "#2d6a4f" :=
  ⟨og_accent_color_fallback.1 Category.video (by decide),
   og_accent_color_fallback.2.1 Category.messaging "#2d6a4f" (by decide)⟩

/-- C5: both legacy generators end in their fixed `## Instructions` blocks,
and those blocks — in particular their five numbered directives — differ
between the guide and the system variant, whatever the other inputs are. -/
theorem instruction_blocks_diverge :
    (∀ s : SystemDesign, ∃ p, generateBuildPrompt s = p ++ sysInstructionsBlock) ∧
    (∀ g : FeatureGuide, ∃ q, generateGuidePrompt g = q ++ guideInstructionsBlock) ∧
    sysInstructionsDirectives ≠ guideInstructionsDirectives ∧
    sysInstructionsBlock ≠ guideInstructionsBlock :=
  ⟨fun s => ⟨specBuildDoc s, buildPrompt_refines s⟩,
   fun g => ⟨specGuideDoc g, guidePrompt_refines g⟩,
   by decide, by decide⟩

/-- C6: the slug lookups return the first roster record whose `slug` equals
the argument and an explicit `none` (never an exception) when no record
matches; with duplicate slugs the earlier record shadows the later one. -/
theorem getBySlug_first_match :
    (∀ (l : List SystemDesign) (sl : String),
        (getSystemBySlug l sl = none ↔ ∀ s ∈ l, s.slug ≠ sl)) ∧
    (∀ (l : List SystemDesign) (sl : String) (s : SystemDesign),
        getSystemBySlug l sl = some s → s.slug = sl ∧ s ∈ l) ∧
    (∀ (pre : List SystemDesign) (a : SystemDesign) (post : List SystemDesign) (sl : String),
        a.slug = sl → (∀ x ∈ pre, x.slug ≠ sl) →
        getSystemBySlug (pre ++ a :: post) sl = some a) ∧
    (∀ (l : List FeatureGuide) (sl : String),
        (getGuideBySlug l sl = none ↔ ∀ g ∈ l, g.slug ≠ sl)) ∧
    (∀ (l : List FeatureGuide) (sl : String) (g : FeatureGuide),
        getGuideBySlug l sl = some g → g.slug = sl ∧ g ∈ l) ∧
    (∀ (pre : List FeatureGuide) (a : FeatureGuide) (post : List FeatureGuide) (sl : String),
        a.slug = sl → (∀ x ∈ pre, x.slug ≠ sl) →
        getGuideBySlug (pre ++ a :: post) sl = some a) := by
  refine ⟨?_, ?_, ?_, ?_, ?_, ?_⟩
  · intro l sl; simp [getSystemBySlug, List.find?_eq_none]
  · intro l sl s h
    exact ⟨by simpa using List.find?_some h, List.mem_of_find?_eq_some h⟩
  · intro pre a post sl ha hpre
    exact find_first_match _ pre a post (fun x hx => by simpa using hpre x hx) (by simp [ha])
  · intro l sl; simp [getGuideBySlug, List.find?_eq_none]
  · intro l sl g h
    exact ⟨by simpa using List.find?_some h, List.mem_of_find?_eq_some h⟩
  · intro pre a post sl ha hpre
    exact find_first_match _ pre a post (fun x hx => by simpa using hpre x hx) (by simp [ha])

/-- C6 witness: with two records sharing the slug `dup`, the lookup returns
the earlier one. -/
theorem getBySlug_first_match_witness :
    getSystemBySlug [mkTestSystem "dup" "A" Category.messaging [],
                     mkTestSystem "dup" "B" Category.social []] "dup" =
      some (mkTestSystem "dup" "A" Category.messaging []) :=
  getBySlug_first_match.2.2.1 [] (mkTestSystem "dup" "A" Category.messaging [])
    [mkTestSystem "dup" "B" Category.social []] "dup" rfl (by decide)

/-- C7: the category filters return exactly the roster records whose
`category` equals the argument — a sublist of the roster (so in roster
order), with membership and count characterized exactly, and the empty
list (not an error) when nothing matches. -/
theorem getByCategory_exact :
    (∀ (l : List SystemDesign) (c : Category),
        (getSystemsByCategory l c).Sublist l ∧
        (∀ s, s ∈ getSystemsByCategory l c ↔ s ∈ l ∧ s.category = c) ∧
        (getSystemsByCategory l c).length = l.countP (fun s => s.category == c) ∧
        ((∀ s ∈ l, s.category ≠ c) → getSystemsByCategory l c = [])) ∧
    (∀ (l : List FeatureGuide) (c : GuideCategory),
        (getGuidesByCategory l c).Sublist l ∧
        (∀ g, g ∈ getGuidesByCategory l c ↔ g ∈ l ∧ g.category = c) ∧
        (getGuidesByCategory l c).length = l.countP (fun g => g.category == c) ∧
        ((∀ g ∈ l, g.category ≠ c) → getGuidesByCategory l c = [])) := by
  constructor
  · intro l c
    refine ⟨List.filter_sublist l, ?_, (List.countP_eq_length_filter _ _).symm, ?_⟩
    · intro s; simp [getSystemsByCategory, List.mem_filter]
    · intro h
      rw [getSystemsByCategory, List.filter_eq_nil_iff]
      intro a ha; simpa using h a ha
  · intro l c
    refine ⟨List.filter_sublist l, ?_, (List.countP_eq_length_filter _ _).symm, ?_⟩
    · intro g; simp [getGuidesByCategory, List.mem_filter]
    · intro h
      rw [getGuidesByCategory, List.filter_eq_nil_iff]
      intro a ha; simpa using h a ha

/-- C7 witness: filtering a two-record roster by a category no record uses
yields the empty list. -/
theorem getByCategory_exact_witness :
    getSystemsByCategory [mkTestSystem "a" "A" Category.messaging [],
                          mkTestSystem "b" "B" Category.social []] Category.infra = [] :=
  (getByCategory_exact.1 [mkTestSystem "a" "A" Category.messaging [],
                          mkTestSystem "b" "B" Category.social []] Category.infra).2.2.2
    (by decide)

/-- C8: the tag listings return a list containing exactly the tag strings
of the roster records, duplicate-free and sorted in ascending
lexicographic order. -/
theorem getAllTags_sorted_dedup :
    (∀ systems : List SystemDesign,
        (∀ t, t ∈ getAllTags systems ↔ ∃ s ∈ systems, t ∈ s.tags) ∧
        (getAllTags systems).Nodup ∧
        (getAllTags systems).Sorted (· ≤ ·)) ∧
    (∀ guides : List FeatureGuide,
        (∀ t, t ∈ getAllGuideTags guides ↔ ∃ g ∈ guides, t ∈ g.tags) ∧
        (getAllGuideTags guides).Nodup ∧
        (getAllGuideTags guides).Sorted (· ≤ ·)) := by
  constructor
  · intro systems
    refine ⟨?_, ?_, List.sorted_insertionSort _ _⟩
    · intro t
      rw [getAllTags, (List.perm_insertionSort _ _).mem_iff, mem_setDedup]
      exact List.mem_flatMap
    · exact ((List.perm_insertionSort _ _).nodup_iff).mpr (nodup_setDedup _)
  · intro guides
    refine ⟨?_, ?_, List.sorted_insertionSort _ _⟩
    · intro t
      rw [getAllGuideTags, (List.perm_insertionSort _ _).mem_iff, mem_setDedup]
      exact List.mem_flatMap
    · exact ((List.perm_insertionSort _ _).nodup_iff).mpr (nodup_setDedup _)

/-- C9: the generated system prompt does not depend on `slug`, `tags`,
`highLevelDiagram`, or any deep-dive item's optional `diagram` field: two
records agreeing on every other prompt-relevant field (deep dives compared
by title and content only) produce identical prompts. -/
theorem buildPrompt_ignores_nonprompt_fields (s₁ s₂ : SystemDesign)
    (hname : s₁.name = s₂.name) (htag : s₁.tagline = s₂.tagline)
    (hov : s₁.overview = s₂.overview) (hsc : s₁.scale = s₂.scale)
    (hrq : s₁.requirements = s₂.requirements)
    (hcp : s₁.components = s₂.components)
    (hdm : s₁.dataModel = s₂.dataModel)
    (hdd : s₁.deepDive.map (fun d => (d.title, d.content)) =
           s₂.deepDive.map (fun d => (d.title, d.content)))
    (htr : s₁.tradeoffs = s₂.tradeoffs) :
    generateBuildPrompt s₁ = generateBuildPrompt s₂ := by
  have hdd' : s₁.deepDive.map specDeepDiveBlock = s₂.deepDive.map specDeepDiveBlock := by
    have h2 := congrArg
      (List.map (fun q : String × String => "### " ++ (q.1 ++ ("\n" ++ q.2)))) hdd
    simpa only [List.map_map] using h2
  rw [buildPrompt_refines, buildPrompt_refines]
  simp only [specBuildDoc, specBuildSections, specSystemIntro, specScaleLines,
    specBulletList, specComponentList, specDeepDiveList, specTradeoffList]
  rw [hname, htag, hov, hsc, hrq, hcp, hdm, htr, hdd']

/-- C9 witness: two records differing only in `slug`, `tags`,
`highLevelDiagram` and a deep-dive `diagram` generate the same prompt. -/
theorem buildPrompt_ignores_nonprompt_fields_witness :
    generateBuildPrompt testSystemA = generateBuildPrompt testSystemB :=
  buildPrompt_ignores_nonprompt_fields testSystemA testSystemB
    rfl rfl rfl rfl rfl rfl rfl rfl rfl

/-- C10: the schema-document generators are total on entries with an absent
body: they substitute the empty string and still return the complete
prompt, including the full closing `## Instructions` block. -/
theorem mdx_generators_total_without_body :
    (∀ n t : String, generateBuildPromptFromMdx ⟨⟨n, t⟩, none⟩ =
        generateBuildPromptFromMdx ⟨⟨n, t⟩, some ""⟩) ∧
    (∀ n t : String, generateBuildPromptFromMdx ⟨⟨n, t⟩, none⟩ =
        specMdxSystemDoc n t "" ++ sysInstructionsBlock) ∧
    (∀ ti tg : String, generateGuidePromptFromMdx ⟨⟨ti, tg⟩, none⟩ =
        generateGuidePromptFromMdx ⟨⟨ti, tg⟩, some ""⟩) ∧
    (∀ ti tg : String, generateGuidePromptFromMdx ⟨⟨ti, tg⟩, none⟩ =
        specMdxGuideDoc ti tg "" ++ guideInstructionsBlock) :=
  ⟨fun _ _ => rfl, mdxBuildPrompt_none, fun _ _ => rfl, mdxGuidePrompt_none⟩
